import Mathlib

/-!
Verification development for the render-instance submission core
(`src/gfx/render/GfxRenderer2.ts` of noclip.website).

The TypeScript classes `GfxRenderInst`, `GfxRenderInstPool` and
`GfxRenderInstManager` are shallowly embedded as Lean structures with
explicit state passing.  JavaScript object references handed out by the
manager are represented by pool indices; mutation of a handed-out object
is a functional update of the pool slot at that index.  Fallible code
paths (JavaScript `TypeError` on `undefined` access, and the `assert`
helper from `util.ts`, which throws) are represented with
`Except String`.  JavaScript numbers used as sort keys are modelled as
`Int`; handles to externally owned GPU objects (programs, input layouts,
input states, samplers, textures, buffers) are modelled as `Nat` ids
wrapped in `Option` (`none` standing for `null`/`undefined`).
Object identity of pooled instances is tracked by an `objId` field
assigned once at construction time, mirroring JavaScript reference
identity (the pool constructs instances only when it grows).
-/

/-- Functional update of the `i`-th element of a list; out-of-range
writes are dropped (every in-range JavaScript `arr[i] = v` site of the
source is modelled with this). -/
def setNth {α : Type} : List α → Nat → α → List α
  | [], _, _ => []
  | _ :: xs, 0, v => v :: xs
  | x :: xs, n+1, v => x :: setNth xs n v

/-- Read of the `i`-th element of a list, `none` when out of range
(JavaScript `arr[i]` yielding `undefined`). -/
def nthOpt {α : Type} : List α → Nat → Option α
  | [], _ => none
  | x :: _, 0 => some x
  | _ :: xs, n+1 => nthOpt xs n

/-- JavaScript-style element write which extends the array when the
index is past the end (`arr[i] = v` grows `arr` to length `i+1`).
Holes created this way are modelled as `0`; the source only ever writes
indices below the fixed capacity 4 of the offsets array it is used on,
where this coincides with `setNth`. -/
def setNthPad : List Nat → Nat → Nat → List Nat
  | [], 0, v => [v]
  | [], n+1, v => 0 :: setNthPad [] n v
  | _ :: xs, 0, v => v :: xs
  | x :: xs, n+1, v => x :: setNthPad xs n v

theorem setNth_length {α : Type} (l : List α) (i : Nat) (v : α) :
    (setNth l i v).length = l.length := by
  induction l generalizing i with
  | nil => rfl
  | cons x xs ih =>
    cases i with
    | zero => rfl
    | succ n => simp [setNth, ih]

theorem nthOpt_lt_length {α : Type} (l : List α) (i : Nat) (a : α)
    (h : nthOpt l i = some a) : i < l.length := by
  induction l generalizing i with
  | nil => simp [nthOpt] at h
  | cons x xs ih =>
    cases i with
    | zero => simp
    | succ n =>
      simp only [nthOpt] at h
      have := ih n h
      simpa using Nat.succ_lt_succ this

theorem nthOpt_mem {α : Type} (l : List α) (i : Nat) (a : α)
    (h : nthOpt l i = some a) : a ∈ l := by
  induction l generalizing i with
  | nil => simp [nthOpt] at h
  | cons x xs ih =>
    cases i with
    | zero => simp only [nthOpt, Option.some.injEq] at h; simp [h]
    | succ n => simp only [nthOpt] at h; exact List.mem_cons_of_mem _ (ih n h)

theorem nthOpt_setNth_self {α : Type} (l : List α) (i : Nat) (v : α)
    (h : i < l.length) : nthOpt (setNth l i v) i = some v := by
  induction l generalizing i with
  | nil => simp at h
  | cons x xs ih =>
    cases i with
    | zero => rfl
    | succ n => simpa [setNth, nthOpt] using ih n (by simpa using Nat.lt_of_succ_lt_succ h)

theorem nthOpt_setNth_ne {α : Type} (l : List α) (i j : Nat) (v : α)
    (h : i ≠ j) : nthOpt (setNth l i v) j = nthOpt l j := by
  induction l generalizing i j with
  | nil => rfl
  | cons x xs ih =>
    cases i with
    | zero =>
      cases j with
      | zero => exact absurd rfl h
      | succ m => rfl
    | succ n =>
      cases j with
      | zero => rfl
      | succ m => simpa [setNth, nthOpt] using ih n m (fun hnm => h (by simp [hnm]))

theorem nthOpt_append_left {α : Type} (l₁ l₂ : List α) (i : Nat)
    (h : i < l₁.length) : nthOpt (l₁ ++ l₂) i = nthOpt l₁ i := by
  induction l₁ generalizing i with
  | nil => simp at h
  | cons x xs ih =>
    cases i with
    | zero => rfl
    | succ n => simpa [nthOpt] using ih n (by simpa using Nat.lt_of_succ_lt_succ h)

theorem nthOpt_append_end {α : Type} (l : List α) (v : α) :
    nthOpt (l ++ [v]) l.length = some v := by
  induction l with
  | nil => rfl
  | cons x xs ih => simpa [nthOpt] using ih

theorem nthOpt_setNthPad_self (l : List Nat) (i : Nat) (v : Nat) :
    nthOpt (setNthPad l i v) i = some v := by
  induction l generalizing i with
  | nil =>
    induction i with
    | zero => rfl
    | succ n ih => simpa [setNthPad, nthOpt] using ih
  | cons x xs ih =>
    cases i with
    | zero => rfl
    | succ n => simpa [setNthPad, nthOpt] using ih n

/-- Binding layout descriptor (`GfxBindingLayoutDescriptor` of the
platform layer): declared numbers of uniform-buffer and sampler slots. -/
structure GfxBindingLayoutDescriptor where
  numUniformBuffers : Nat
  numSamplers : Nat
deriving DecidableEq, Repr

/-- One sampler binding entry: non-owning sampler and texture handles. -/
structure GfxSamplerBinding where
  sampler : Option Nat
  texture : Option Nat
deriving DecidableEq, Repr

/-- One uniform-buffer binding entry: non-owning buffer handle, word
count and word offset. -/
structure GfxBufferBinding where
  buffer : Option Nat
  wordCount : Nat
  wordOffset : Nat
deriving DecidableEq, Repr

/-- The single binding-set descriptor `_bindingDescriptors[0]` of an
instance.  Its `bindingLayout` field is absent (`undefined`) until
`_setBindingLayout` runs, hence the `Option`. -/
structure GfxBindingsDescriptor where
  bindingLayout : Option GfxBindingLayoutDescriptor
  samplerBindings : List GfxSamplerBinding
  uniformBufferBindings : List GfxBufferBinding
deriving DecidableEq, Repr

/-- Modelled from the spec: the mega-state descriptor helpers
(`GfxMegaStateDescriptorHelpers.ts`, an external collaborator of this
core) provide pure value operations only — default construction, full
copy, and a field overlay which, applied to a full descriptor as in
`setFromTemplate`, replaces the whole value.  The descriptor is
therefore modelled as an opaque `Nat` value, copied by assignment. -/
def defaultMegaState : Nat := 0

/-- Modelled from the spec: `copyMegaState` is a full value copy. -/
def copyMegaState (m : Nat) : Nat := m

/-- Value of `GfxPrimitiveTopology.TRIANGLES` used by the instance
constructor (the concrete enumeration value is irrelevant here). -/
def trianglesTopology : Nat := 0

/-- The pipeline descriptor built by an instance.  The source only ever
writes index 0 of its `bindingLayouts` array, which starts empty, so it
is modelled as a single optional slot. -/
structure GfxRenderPipelineDescriptor where
  bindingLayouts0 : Option GfxBindingLayoutDescriptor
  inputLayout : Option Nat
  megaStateDescriptor : Nat
  program : Option Nat
  topology : Nat
deriving DecidableEq, Repr

/-- State of one `GfxRenderInst`.  `objId` models JavaScript reference
identity; `drawStart`/`drawCount` are `undefined` until a draw call is
recorded, hence `Option`. -/
structure GfxRenderInst where
  objId : Nat
  sortKey : Int
  passMask : Nat
  flags : Nat
  parentTemplateIndex : Int
  renderPipelineDescriptor : GfxRenderPipelineDescriptor
  bindingDescriptor : GfxBindingsDescriptor
  dynamicUniformBufferOffsets : List Nat
  uniformBuffer : Option Nat
  inputState : Option Nat
  drawStart : Option Nat
  drawCount : Option Nat
deriving DecidableEq, Repr

/-- The constructor `new GfxRenderInst()` (with the identity tag of the
fresh object). -/
def GfxRenderInst.new (id : Nat) : GfxRenderInst where
  objId := id
  sortKey := 0
  passMask := 0
  flags := 0
  parentTemplateIndex := -1
  renderPipelineDescriptor :=
    { bindingLayouts0 := none
      inputLayout := none
      megaStateDescriptor := copyMegaState defaultMegaState
      program := none
      topology := trianglesTopology }
  bindingDescriptor :=
    { bindingLayout := none, samplerBindings := [], uniformBufferBindings := [] }
  dynamicUniformBufferOffsets := [0, 0, 0, 0]
  uniformBuffer := none
  inputState := none
  drawStart := none
  drawCount := none

/-- `GfxRenderInst.reset`: clears only `sortKey` and `passMask`. -/
def GfxRenderInst.reset (inst : GfxRenderInst) : GfxRenderInst :=
  { inst with sortKey := 0, passMask := 0 }

/-- `GfxRenderInst.setGfxProgram`. -/
def GfxRenderInst.setGfxProgram (inst : GfxRenderInst) (program : Nat) : GfxRenderInst :=
  { inst with renderPipelineDescriptor :=
      { inst.renderPipelineDescriptor with program := some program } }

/-- `GfxRenderInst.drawIndexes`: sets the `DRAW_INDEXED` flag bit and
records the index range. -/
def GfxRenderInst.drawIndexes (inst : GfxRenderInst) (indexCount indexStart : Nat) : GfxRenderInst :=
  { inst with
    flags := inst.flags ||| 2
    drawCount := some indexCount
    drawStart := some indexStart }

/-- `GfxRenderInst.drawPrimitives`: records the primitive range.  Note
that it does not touch `flags` (in particular it does not clear
`DRAW_INDEXED`). -/
def GfxRenderInst.drawPrimitives (inst : GfxRenderInst) (primitiveCount primitiveStart : Nat) : GfxRenderInst :=
  { inst with drawCount := some primitiveCount, drawStart := some primitiveStart }

/-- Growth of the uniform-buffer binding array performed by
`_setBindingLayout`: append default entries up to the declared count,
never shrink. -/
def growUniformBufferBindings (l : List GfxBufferBinding) (n : Nat) : List GfxBufferBinding :=
  l ++ List.replicate (n - l.length) { buffer := none, wordCount := 0, wordOffset := 0 }

/-- Growth of the sampler binding array performed by
`_setBindingLayout`. -/
def growSamplerBindings (l : List GfxSamplerBinding) (n : Nat) : List GfxSamplerBinding :=
  l ++ List.replicate (n - l.length) { sampler := none, texture := none }

/-- `GfxRenderInst._setBindingLayout`: asserts the declared
uniform-buffer count is below the fixed capacity of
`_dynamicUniformBufferOffsets`, stores the layout in both the pipeline
descriptor and the bindings descriptor, and grows the binding arrays. -/
def GfxRenderInst.setBindingLayout (inst : GfxRenderInst)
    (bindingLayout : GfxBindingLayoutDescriptor) : Except String GfxRenderInst :=
  if bindingLayout.numUniformBuffers < inst.dynamicUniformBufferOffsets.length then
    .ok { inst with
      renderPipelineDescriptor :=
        { inst.renderPipelineDescriptor with bindingLayouts0 := some bindingLayout }
      bindingDescriptor :=
        { inst.bindingDescriptor with
          bindingLayout := some bindingLayout
          uniformBufferBindings :=
            growUniformBufferBindings inst.bindingDescriptor.uniformBufferBindings
              bindingLayout.numUniformBuffers
          samplerBindings :=
            growSamplerBindings inst.bindingDescriptor.samplerBindings
              bindingLayout.numSamplers } }
  else .error "assert failed: numUniformBuffers below offsets capacity"

/-- `GfxRenderInst.setSamplerBindings`: overwrites sampler entries
`0..m.length-1`; reading a destination entry past the array's length is
a `TypeError` in the source (`dst` is `undefined`). -/
def GfxRenderInst.setSamplerBindings (inst : GfxRenderInst)
    (m : List GfxSamplerBinding) : Except String GfxRenderInst :=
  if m.length ≤ inst.bindingDescriptor.samplerBindings.length then
    .ok { inst with bindingDescriptor :=
      { inst.bindingDescriptor with
        samplerBindings := m ++ inst.bindingDescriptor.samplerBindings.drop m.length } }
  else .error "TypeError: sampler binding entry is undefined"

/-- `GfxRenderInst.setBindingBase`: asserts exactly one binding layout,
sets it, and records the dynamic uniform buffer collaborator. -/
def GfxRenderInst.setBindingBase (inst : GfxRenderInst)
    (bindingLayouts : List GfxBindingLayoutDescriptor) (uniformBuffer : Nat) :
    Except String GfxRenderInst :=
  if bindingLayouts.length ≤ 1 ∧ bindingLayouts.length = 1 then
    match bindingLayouts with
    | [l0] => (inst.setBindingLayout l0).map
        (fun i => { i with uniformBuffer := some uniformBuffer })
    | _ => .error "unreachable"
  else .error "assert failed: bindingLayouts length"

/-- `GfxRenderInst.allocateUniformBuffer`: `chunkOffset` is the offset
returned by the external dynamic uniform buffer's `allocateChunk`
(passed in explicitly, since that collaborator is outside this core).
The source's assert checks only the layout's uniform-buffer count
against the offsets capacity — it never validates `bufferIndex`; an
out-of-range `bufferIndex` is a `TypeError` only because the
destination binding entry is `undefined`. -/
def GfxRenderInst.allocateUniformBuffer (inst : GfxRenderInst)
    (chunkOffset bufferIndex wordCount : Nat) : Except String (GfxRenderInst × Nat) :=
  match inst.bindingDescriptor.bindingLayout with
  | none => .error "TypeError: bindingLayout is undefined"
  | some l =>
    if l.numUniformBuffers < inst.dynamicUniformBufferOffsets.length then
      let dyn' := setNthPad inst.dynamicUniformBufferOffsets bufferIndex chunkOffset
      match nthOpt inst.bindingDescriptor.uniformBufferBindings bufferIndex with
      | none => .error "TypeError: uniform buffer binding entry is undefined"
      | some dst =>
        .ok ({ inst with
            dynamicUniformBufferOffsets := dyn'
            bindingDescriptor :=
              { inst.bindingDescriptor with
                uniformBufferBindings :=
                  setNth inst.bindingDescriptor.uniformBufferBindings bufferIndex
                    { dst with wordOffset := 0, wordCount := wordCount } } },
          (nthOpt dyn' bufferIndex).getD 0)
    else .error "assert failed: numUniformBuffers below offsets capacity"

/-- The word-count copy loop at the end of `setFromTemplate`:
`dst[i].wordCount = src[i].wordCount` for `i` below the layout's
uniform-buffer count; a missing entry on either side is a `TypeError`. -/
def copyWordCounts : Nat → List GfxBufferBinding → List GfxBufferBinding →
    Except String (List GfxBufferBinding)
  | 0, _, dst => .ok dst
  | n+1, src, dst =>
    match copyWordCounts n src dst with
    | .error e => .error e
    | .ok dst' =>
      match nthOpt src n, nthOpt dst' n with
      | some s, some d => .ok (setNth dst' n { d with wordCount := s.wordCount })
      | _, _ => .error "TypeError: uniform buffer binding entry is undefined"

/-- `GfxRenderInst.setFromTemplate o`: copies mega-state (a full-value
overlay via `setMegaStateFlags`), program, input layout, topology,
input state, the uniform-buffer collaborator, the binding layout, all
of the template's sampler binding entries, and the uniform-buffer word
counts up to the layout's declared count.  It copies neither the word
offsets, nor `_dynamicUniformBufferOffsets`, nor the draw range, nor
`sortKey`/`passMask`/`_flags`/`_parentTemplateIndex`. -/
def GfxRenderInst.setFromTemplate (inst o : GfxRenderInst) : Except String GfxRenderInst :=
  let i1 := { inst with
    renderPipelineDescriptor :=
      { inst.renderPipelineDescriptor with
        megaStateDescriptor := o.renderPipelineDescriptor.megaStateDescriptor
        program := o.renderPipelineDescriptor.program
        inputLayout := o.renderPipelineDescriptor.inputLayout
        topology := o.renderPipelineDescriptor.topology }
    inputState := o.inputState
    uniformBuffer := o.uniformBuffer }
  match o.bindingDescriptor.bindingLayout with
  | none => .error "TypeError: template bindingLayout is undefined"
  | some l =>
    match i1.setBindingLayout l with
    | .error e => .error e
    | .ok i2 =>
      match i2.setSamplerBindings o.bindingDescriptor.samplerBindings with
      | .error e => .error e
      | .ok i3 =>
        match copyWordCounts l.numUniformBuffers o.bindingDescriptor.uniformBufferBindings
            i3.bindingDescriptor.uniformBufferBindings with
        | .error e => .error e
        | .ok ubb' =>
          .ok { i3 with bindingDescriptor :=
            { i3.bindingDescriptor with uniformBufferBindings := ubb' } }

/-- Pass-renderer calls issued by `drawOnPass`, recorded as a trace. -/
inductive GfxPassCmd where
  | setPipeline : Nat → GfxPassCmd
  | setInputState : Option Nat → GfxPassCmd
  | setBindings : Nat → Nat → List Nat → GfxPassCmd
  | draw : Option Nat → Option Nat → GfxPassCmd
  | drawIndexed : Option Nat → Option Nat → GfxPassCmd
deriving DecidableEq, Repr

/-- External collaborators used by `drawOnPass`: the pipeline/bindings
cache (`createRenderPipeline`/`createBindings`, returning deduplicated
handles), the device readiness poll, and the map from a dynamic uniform
buffer id to its underlying `gfxBuffer` handle. -/
structure DrawEnv where
  createRenderPipeline : GfxRenderPipelineDescriptor → Nat
  queryPipelineReady : Nat → Bool
  createBindings : GfxBindingsDescriptor → Nat
  gfxBufferOf : Nat → Nat

/-- The loop in `drawOnPass` that stamps the collaborator's `gfxBuffer`
handle into every uniform-buffer binding entry just before binding. -/
def fillBuffers (env : DrawEnv) (inst : GfxRenderInst) : GfxRenderInst :=
  { inst with bindingDescriptor :=
    { inst.bindingDescriptor with
      uniformBufferBindings :=
        inst.bindingDescriptor.uniformBufferBindings.map
          (fun e => { e with buffer := inst.uniformBuffer.map env.gfxBufferOf }) } }

/-- `GfxRenderInst.drawOnPass`: resolves the pipeline through the
cache; if the device reports it unready, returns with no pass calls and
no instance mutation.  Otherwise fills the buffer references, and emits
`setPipeline`, `setInputState`, `setBindings` and exactly one draw call
(indexed iff the `DRAW_INDEXED` flag bit is set).  Dereferencing the
uniform-buffer collaborator with entries to fill but no collaborator
set is a `TypeError`. -/
def GfxRenderInst.drawOnPass (inst : GfxRenderInst) (env : DrawEnv) :
    Except String (GfxRenderInst × List GfxPassCmd) :=
  let p := env.createRenderPipeline inst.renderPipelineDescriptor
  if env.queryPipelineReady p then
    if inst.bindingDescriptor.uniformBufferBindings ≠ [] ∧ inst.uniformBuffer = none then
      .error "TypeError: uniformBuffer is undefined"
    else
      let inst' := fillBuffers env inst
      let b := env.createBindings inst'.bindingDescriptor
      .ok (inst',
        [.setPipeline p, .setInputState inst.inputState,
         .setBindings 0 b inst.dynamicUniformBufferOffsets,
         if inst.flags &&& 2 != 0 then .drawIndexed inst.drawCount inst.drawStart
         else .draw inst.drawCount inst.drawStart])
  else
    .ok (inst, [])

/-- State of the `GfxRenderInstPool` linear pool allocator. -/
structure GfxRenderInstPool where
  pool : List GfxRenderInst
  renderInstAllocCount : Nat
  renderInstFreeCount : Nat
deriving DecidableEq, Repr

/-- The empty pool a fresh manager starts with. -/
def GfxRenderInstPool.init : GfxRenderInstPool :=
  { pool := [], renderInstAllocCount := 0, renderInstFreeCount := 0 }

/-- The `findIndex((renderInst) => renderInst._flags === 0)` scan over
the whole pool, `none` standing for `-1`. -/
def findFree : List GfxRenderInst → Option Nat
  | [] => none
  | x :: xs => if x.flags == 0 then some 0 else (findFree xs).map (· + 1)

/-- `GfxRenderInstPool.allocRenderInstIndex`: when `renderInstFreeCount`
is positive, decrements it and scans the whole pool for the first slot
with `_flags === 0` (without touching `renderInstAllocCount`);
otherwise bumps `renderInstAllocCount`, appending one freshly
constructed instance when that exceeds the pool's length, and returns
the new count minus one.  `none` models `findIndex` returning `-1`. -/
def GfxRenderInstPool.allocRenderInstIndex (p : GfxRenderInstPool) :
    GfxRenderInstPool × Option Nat :=
  if 0 < p.renderInstFreeCount then
    ({ p with renderInstFreeCount := p.renderInstFreeCount - 1 }, findFree p.pool)
  else
    let ac := p.renderInstAllocCount + 1
    let pool' := if p.pool.length < ac then p.pool ++ [GfxRenderInst.new p.pool.length]
                 else p.pool
    ({ p with renderInstAllocCount := ac, pool := pool' }, some (ac - 1))

/-- `GfxRenderInstPool.returnRenderInst` on the instance stored at
`idx`: clears its flags and increments `renderInstFreeCount`. -/
def GfxRenderInstPool.returnRenderInst (p : GfxRenderInstPool) (idx : Nat) :
    GfxRenderInstPool :=
  { p with
    pool := match nthOpt p.pool idx with
            | some r => setNth p.pool idx { r with flags := 0 }
            | none => p.pool
    renderInstFreeCount := p.renderInstFreeCount + 1 }

/-- Clearing of `_flags` on the first `n` slots performed by
`GfxRenderInstPool.reset`. -/
def zeroFlags : Nat → List GfxRenderInst → List GfxRenderInst
  | _, [] => []
  | 0, l => l
  | n+1, x :: xs => { x with flags := 0 } :: zeroFlags n xs

/-- `GfxRenderInstPool.reset`: clears the flags of every slot in
`[0, renderInstAllocCount)` and zeroes `renderInstAllocCount`.  It does
not touch `renderInstFreeCount` (faithful to the source, where the
field keeps its value across the reset). -/
def GfxRenderInstPool.reset (p : GfxRenderInstPool) : GfxRenderInstPool :=
  { p with
    pool := zeroFlags p.renderInstAllocCount p.pool
    renderInstAllocCount := 0 }

/-- `compareRenderInsts`: invisible instances are forced late; visible
ones compare by `sortKey` difference. -/
def compareRenderInsts (a b : GfxRenderInst) : Int :=
  if a.flags &&& 1 == 0 then 1
  else if b.flags &&& 1 == 0 then -1
  else a.sortKey - b.sortKey

/-- Visibility test `_flags & VISIBLE`. -/
def visibleInst (r : GfxRenderInst) : Bool := r.flags &&& 1 != 0

/-- Comparator as a merge switch: take the left element first when the
comparator result is non-positive. -/
def rleInst (a b : GfxRenderInst) : Bool := compareRenderInsts a b ≤ 0

/-- The merge of two runs under `compareRenderInsts`, driven by
structural fuel so that it evaluates by kernel reduction; the fuel is
always sufficient at the wrapper below. -/
def mergeFuel : Nat → List GfxRenderInst → List GfxRenderInst → List GfxRenderInst
  | 0, xs, ys => xs ++ ys
  | _+1, [], ys => ys
  | _+1, x :: xs, [] => x :: xs
  | fuel+1, x :: xs, y :: ys =>
    if rleInst x y then x :: mergeFuel fuel xs (y :: ys)
    else y :: mergeFuel fuel (x :: xs) ys

/-- The merge of two runs under `compareRenderInsts`. -/
def mergeInsts (xs ys : List GfxRenderInst) : List GfxRenderInst :=
  mergeFuel (xs.length + ys.length) xs ys

/-- Alternating split used by the merge sort. -/
def splitInsts : List GfxRenderInst → List GfxRenderInst × List GfxRenderInst
  | [] => ([], [])
  | [a] => ([a], [])
  | a :: b :: rest =>
    let p := splitInsts rest
    (a :: p.1, b :: p.2)

theorem splitInsts_fst_length (l : List GfxRenderInst) :
    (splitInsts l).1.length ≤ l.length := by
  induction l using splitInsts.induct with
  | case1 => simp [splitInsts]
  | case2 a => simp [splitInsts]
  | case3 a b rest ih => simp [splitInsts]; omega

theorem splitInsts_snd_length (l : List GfxRenderInst) :
    (splitInsts l).2.length ≤ l.length := by
  induction l using splitInsts.induct with
  | case1 => simp [splitInsts]
  | case2 a => simp [splitInsts]
  | case3 a b rest ih => simp [splitInsts]; omega

/-- Fuel-driven merge sort body; the fuel is always sufficient at the
wrapper below. -/
def mergeSortFuel : Nat → List GfxRenderInst → List GfxRenderInst
  | _, [] => []
  | _, [a] => [a]
  | 0, l => l
  | fuel+1, a :: b :: rest =>
    let p := splitInsts rest
    mergeInsts (mergeSortFuel fuel (a :: p.1)) (mergeSortFuel fuel (b :: p.2))

/-- Model of `this.gfxRenderInstPool.pool.sort(compareRenderInsts)`:
`Array.prototype.sort` is modelled as a merge sort (the family every
mainstream JavaScript engine implements) driven by the source's
comparator. -/
def mergeSortInsts (l : List GfxRenderInst) : List GfxRenderInst :=
  mergeSortFuel l.length l

/-- State of the `GfxRenderInstManager` (the render cache collaborator
carries no state relevant to this model). -/
structure GfxRenderInstManager where
  gfxRenderInstPool : GfxRenderInstPool
  renderInstTemplateIndex : Int
deriving DecidableEq, Repr

/-- A freshly constructed manager. -/
def GfxRenderInstManager.init : GfxRenderInstManager :=
  { gfxRenderInstPool := GfxRenderInstPool.init, renderInstTemplateIndex := -1 }

/-- `GfxRenderInstManager.pushRenderInst`: allocates an index, derives
the instance from the active template when one is set (else resets it),
marks it `VISIBLE`, and hands its index out. -/
def GfxRenderInstManager.pushRenderInst (m : GfxRenderInstManager) :
    Except String (GfxRenderInstManager × Nat) :=
  let pr := m.gfxRenderInstPool.allocRenderInstIndex
  match pr.2 with
  | none => .error "TypeError: pool element -1 is undefined"
  | some idx =>
    match nthOpt pr.1.pool idx with
    | none => .error "TypeError: pool slot is undefined"
    | some inst =>
      let afterCopy : Except String GfxRenderInst :=
        if 0 ≤ m.renderInstTemplateIndex then
          match nthOpt pr.1.pool m.renderInstTemplateIndex.toNat with
          | none => .error "TypeError: template slot is undefined"
          | some tmpl => inst.setFromTemplate tmpl
        else .ok inst.reset
      match afterCopy with
      | .error e => .error e
      | .ok inst' =>
        .ok ({ m with gfxRenderInstPool :=
                { pr.1 with pool := setNth pr.1.pool idx { inst' with flags := 1 } } },
             idx)

/-- `GfxRenderInstManager.pushTemplateRenderInst`: allocates an index;
when a template is already active the new one inherits from it and
records it as parent.  The new template's flags are left untouched (the
source never marks templates `VISIBLE`). -/
def GfxRenderInstManager.pushTemplateRenderInst (m : GfxRenderInstManager) :
    Except String (GfxRenderInstManager × Nat) :=
  let pr := m.gfxRenderInstPool.allocRenderInstIndex
  match pr.2 with
  | none => .error "TypeError: pool element -1 is undefined"
  | some idx =>
    match nthOpt pr.1.pool idx with
    | none => .error "TypeError: pool slot is undefined"
    | some inst =>
      let afterCopy : Except String GfxRenderInst :=
        if 0 ≤ m.renderInstTemplateIndex then
          match nthOpt pr.1.pool m.renderInstTemplateIndex.toNat with
          | none => .error "TypeError: template slot is undefined"
          | some tmpl =>
            (inst.setFromTemplate tmpl).map
              (fun i => { i with parentTemplateIndex := m.renderInstTemplateIndex })
        else .ok inst
      match afterCopy with
      | .error e => .error e
      | .ok inst' =>
        .ok ({ m with
                gfxRenderInstPool := { pr.1 with pool := setNth pr.1.pool idx inst' }
                renderInstTemplateIndex := Int.ofNat idx },
             idx)

/-- `GfxRenderInstManager.popTemplateRenderInst`: returns the active
template's slot to the pool and restores the recorded parent index. -/
def GfxRenderInstManager.popTemplateRenderInst (m : GfxRenderInstManager) :
    Except String GfxRenderInstManager :=
  if 0 ≤ m.renderInstTemplateIndex then
    match nthOpt m.gfxRenderInstPool.pool m.renderInstTemplateIndex.toNat with
    | none => .error "TypeError: template slot is undefined"
    | some inst =>
      .ok { m with
        gfxRenderInstPool :=
          m.gfxRenderInstPool.returnRenderInst m.renderInstTemplateIndex.toNat
        renderInstTemplateIndex := inst.parentTemplateIndex }
  else .error "TypeError: pool element -1 is undefined"

/-- The submission loop of `executeOnPass`: walks indices `0..rem-1`
starting at `i`, stops at the first instance without the `VISIBLE`
bit, and submits each visible one via `drawOnPass`, writing the drawn
instance (whose buffer references were filled) back into its slot. -/
def drawLoop (env : DrawEnv) : List GfxRenderInst → Nat → Nat →
    Except String (List GfxRenderInst × List GfxPassCmd)
  | pool, _, 0 => .ok (pool, [])
  | pool, i, rem+1 =>
    match nthOpt pool i with
    | none => .error "TypeError: pool slot is undefined"
    | some inst =>
      if inst.flags &&& 1 == 0 then .ok (pool, [])
      else
        match inst.drawOnPass env with
        | .error e => .error e
        | .ok (inst', cmds) =>
          match drawLoop env (setNth pool i inst') (i+1) rem with
          | .error e => .error e
          | .ok (pool', rest) => .ok (pool', cmds ++ rest)

/-- `GfxRenderInstManager.executeOnPass`: no-op when nothing was
allocated this frame; otherwise sorts the whole pool array with
`compareRenderInsts`, submits the visible prefix of the live range, and
resets the pool. -/
def GfxRenderInstManager.executeOnPass (m : GfxRenderInstManager) (env : DrawEnv) :
    Except String (GfxRenderInstManager × List GfxPassCmd) :=
  if m.gfxRenderInstPool.renderInstAllocCount == 0 then .ok (m, [])
  else
    let sorted := mergeSortInsts m.gfxRenderInstPool.pool
    match drawLoop env sorted 0 m.gfxRenderInstPool.renderInstAllocCount with
    | .error e => .error e
    | .ok (pool', cmds) =>
      .ok ({ m with gfxRenderInstPool :=
              GfxRenderInstPool.reset { m.gfxRenderInstPool with pool := pool' } },
           cmds)

/-- Mutation of a handed-out instance by the caller (the caller holds
the object reference; the manager state sees the update in place). -/
def mgrModify (m : GfxRenderInstManager) (idx : Nat)
    (f : GfxRenderInst → Except String GfxRenderInst) :
    Except String GfxRenderInstManager :=
  match nthOpt m.gfxRenderInstPool.pool idx with
  | none => .error "no instance at this index"
  | some r =>
    (f r).map (fun r' =>
      { m with gfxRenderInstPool :=
          { m.gfxRenderInstPool with
            pool := setNth m.gfxRenderInstPool.pool idx r' } })

/-- Unwrapping of an `Except` value with an explicit fallback, used
only to name concrete states of scenario runs. -/
def okOr {α : Type} (x : Except String α) (d : α) : α :=
  match x with
  | .ok v => v
  | .error _ => d

/-- Order relation established by the sort: a pair is acceptable when
both are visible with ascending key, or the later one is invisible. -/
def keyOrdered (a b : GfxRenderInst) : Prop :=
  (visibleInst a = true ∧ visibleInst b = true ∧ a.sortKey ≤ b.sortKey) ∨ visibleInst b = false

instance (a b : GfxRenderInst) : Decidable (keyOrdered a b) := by
  unfold keyOrdered; infer_instance


theorem rleInst_true (a b : GfxRenderInst) (h : rleInst a b = true) : keyOrdered a b := by
  simp only [rleInst, compareRenderInsts, Nat.and_one_is_mod, beq_iff_eq,
    decide_eq_true_eq] at h
  by_cases ha : a.flags % 2 = 0
  · simp [ha] at h
  · by_cases hb : b.flags % 2 = 0
    · right; simp [visibleInst, Nat.and_one_is_mod, hb]
    · left
      refine ⟨?_, ?_, ?_⟩
      · simp only [visibleInst, Nat.and_one_is_mod, bne_iff_ne, ne_eq, decide_eq_true_eq]
        omega
      · simp only [visibleInst, Nat.and_one_is_mod, bne_iff_ne, ne_eq, decide_eq_true_eq]
        omega
      · simp only [if_neg ha, if_neg hb] at h
        omega

theorem rleInst_false (a b : GfxRenderInst) (h : rleInst a b = false) : keyOrdered b a := by
  simp only [rleInst, compareRenderInsts, Nat.and_one_is_mod, beq_iff_eq,
    decide_eq_false_iff_not, not_le] at h
  by_cases ha : a.flags % 2 = 0
  · right; simp [visibleInst, Nat.and_one_is_mod, ha]
  · by_cases hb : b.flags % 2 = 0
    · simp only [if_neg ha, if_pos hb] at h
      omega
    · left
      refine ⟨?_, ?_, ?_⟩
      · simp only [visibleInst, Nat.and_one_is_mod, bne_iff_ne, ne_eq, decide_eq_true_eq]
        omega
      · simp only [visibleInst, Nat.and_one_is_mod, bne_iff_ne, ne_eq, decide_eq_true_eq]
        omega
      · simp only [if_neg ha, if_neg hb] at h
        omega

theorem keyOrdered_trans (a b c : GfxRenderInst)
    (hab : keyOrdered a b) (hbc : keyOrdered b c) : keyOrdered a c := by
  rcases hbc with ⟨hb, hc, hkbc⟩ | hc
  · rcases hab with ⟨ha, _, hkab⟩ | hb'
    · exact Or.inl ⟨ha, hc, le_trans hkab hkbc⟩
    · rw [hb] at hb'; cases hb'
  · exact Or.inr hc

theorem mem_mergeFuel (fuel : Nat) (xs ys : List GfxRenderInst) (z : GfxRenderInst)
    (h : z ∈ mergeFuel fuel xs ys) : z ∈ xs ∨ z ∈ ys := by
  induction fuel generalizing xs ys with
  | zero => simpa [mergeFuel] using List.mem_append.mp (by simpa [mergeFuel] using h)
  | succ fuel ih =>
    match xs, ys with
    | [], ys => exact Or.inr h
    | x :: xs, [] => exact Or.inl h
    | x :: xs, y :: ys =>
      rw [mergeFuel] at h
      by_cases hle : rleInst x y = true
      · rw [if_pos hle] at h
        rcases List.mem_cons.mp h with hz | hz
        · exact Or.inl (by simp [hz])
        · rcases ih xs (y :: ys) hz with hz' | hz'
          · exact Or.inl (List.mem_cons_of_mem _ hz')
          · exact Or.inr hz'
      · rw [if_neg hle] at h
        rcases List.mem_cons.mp h with hz | hz
        · exact Or.inr (by simp [hz])
        · rcases ih (x :: xs) ys hz with hz' | hz'
          · exact Or.inl hz'
          · exact Or.inr (List.mem_cons_of_mem _ hz')

theorem pairwise_mergeFuel (fuel : Nat) (xs ys : List GfxRenderInst)
    (hf : xs.length + ys.length ≤ fuel)
    (hx : xs.Pairwise keyOrdered) (hy : ys.Pairwise keyOrdered) :
    (mergeFuel fuel xs ys).Pairwise keyOrdered := by
  induction fuel generalizing xs ys with
  | zero =>
    have hxs : xs = [] := List.eq_nil_of_length_eq_zero (by omega)
    have hys : ys = [] := List.eq_nil_of_length_eq_zero (by omega)
    simp [hxs, hys, mergeFuel]
  | succ fuel ih =>
    match xs, ys with
    | [], ys => exact hy
    | x :: xs, [] => exact hx
    | x :: xs, y :: ys =>
      rw [mergeFuel]
      by_cases hle : rleInst x y = true
      · rw [if_pos hle]
        rw [List.pairwise_cons] at hx
        refine List.pairwise_cons.mpr ⟨?_, ih xs (y :: ys) (by simp at hf ⊢; omega) hx.2 hy⟩
        intro z hz
        rcases mem_mergeFuel _ _ _ _ hz with hz' | hz'
        · exact hx.1 z hz'
        · rcases List.mem_cons.mp hz' with hz'' | hz''
          · rw [hz'']; exact rleInst_true x y hle
          · exact keyOrdered_trans x y z (rleInst_true x y hle)
              ((List.pairwise_cons.mp hy).1 z hz'')
      · rw [if_neg hle]
        rw [List.pairwise_cons] at hy
        refine List.pairwise_cons.mpr ⟨?_, ih (x :: xs) ys (by simp at hf ⊢; omega) hx hy.2⟩
        intro z hz
        have hyx : keyOrdered y x := rleInst_false x y (by simpa using hle)
        rcases mem_mergeFuel _ _ _ _ hz with hz' | hz'
        · rcases List.mem_cons.mp hz' with hz'' | hz''
          · rw [hz'']; exact hyx
          · exact keyOrdered_trans y x z hyx ((List.pairwise_cons.mp hx).1 z hz'')
        · exact hy.1 z hz'

theorem mem_mergeInsts (xs ys : List GfxRenderInst) (z : GfxRenderInst)
    (h : z ∈ mergeInsts xs ys) : z ∈ xs ∨ z ∈ ys :=
  mem_mergeFuel _ xs ys z h

theorem pairwise_mergeInsts (xs ys : List GfxRenderInst)
    (hx : xs.Pairwise keyOrdered) (hy : ys.Pairwise keyOrdered) :
    (mergeInsts xs ys).Pairwise keyOrdered :=
  pairwise_mergeFuel _ xs ys (Nat.le_refl _) hx hy

theorem pairwise_mergeSortFuel (fuel : Nat) (l : List GfxRenderInst)
    (hf : l.length ≤ fuel + 1) : (mergeSortFuel fuel l).Pairwise keyOrdered := by
  revert hf
  induction fuel, l using mergeSortFuel.induct with
  | case1 fuel => intro hf; simp [mergeSortFuel]
  | case2 fuel a => intro hf; simp [mergeSortFuel]
  | case3 l h1 h2 =>
    intro hf
    cases l with
    | nil => cases h1 rfl
    | cons a t =>
      cases t with
      | nil => cases h2 a rfl
      | cons b r => simp at hf
  | case4 fuel a b rest p ih1 ih2 =>
    intro hf
    rw [mergeSortFuel]
    have h1 := splitInsts_fst_length rest
    have h2 := splitInsts_snd_length rest
    refine pairwise_mergeInsts _ _ (ih1 ?_) (ih2 ?_)
    · show (a :: (splitInsts rest).1).length ≤ fuel + 1
      simp at hf ⊢; omega
    · show (b :: (splitInsts rest).2).length ≤ fuel + 1
      simp at hf ⊢; omega

theorem pairwise_mergeSortInsts (l : List GfxRenderInst) :
    (mergeSortInsts l).Pairwise keyOrdered :=
  pairwise_mergeSortFuel l.length l (Nat.le_succ _)

theorem pairwise_nthOpt {α : Type} (R : α → α → Prop) (l : List α)
    (h : l.Pairwise R) (i j : Nat) (hij : i < j) (a b : α)
    (ha : nthOpt l i = some a) (hb : nthOpt l j = some b) : R a b := by
  induction l generalizing i j with
  | nil => simp [nthOpt] at ha
  | cons x xs ih =>
    cases i with
    | zero =>
      cases j with
      | zero => omega
      | succ m =>
        simp only [nthOpt, Option.some.injEq] at ha
        simp only [nthOpt] at hb
        rw [← ha]
        exact (List.pairwise_cons.mp h).1 b (nthOpt_mem xs m b hb)
    | succ n =>
      cases j with
      | zero => omega
      | succ m =>
        simp only [nthOpt] at ha hb
        exact ih (List.pairwise_cons.mp h).2 n m (by omega) ha hb

/-- Draw environment whose device never reports a pipeline ready. -/
def envSkip : DrawEnv :=
  { createRenderPipeline := fun _ => 0
    queryPipelineReady := fun _ => false
    createBindings := fun _ => 0
    gfxBufferOf := fun n => n }

/-- Draw environment whose device reports every pipeline ready. -/
def envReady : DrawEnv :=
  { createRenderPipeline := fun _ => 1
    queryPipelineReady := fun _ => true
    createBindings := fun _ => 2
    gfxBufferOf := fun n => n }

/-- C1: after the sort step of `executeOnPass` (the in-place
`pool.sort(compareRenderInsts)`, modelled by `mergeSortInsts`), for any
two positions `i < j` within the live range `[0, renderInstAllocCount)`
of the pool, either both instances are visible with
`sortKey` at `i` at most `sortKey` at `j`, or the instance at `j` is
non-visible: the sort puts the visible instances into a contiguous
ascending-key prefix with all freed/invisible slots at or after it. -/
theorem executeOnPass_sort_ordering (m : GfxRenderInstManager) (i j : Nat)
    (a b : GfxRenderInst) (hij : i < j)
    (_hj : j < m.gfxRenderInstPool.renderInstAllocCount)
    (ha : nthOpt (mergeSortInsts m.gfxRenderInstPool.pool) i = some a)
    (hb : nthOpt (mergeSortInsts m.gfxRenderInstPool.pool) j = some b) :
    (visibleInst a = true ∧ visibleInst b = true ∧ a.sortKey ≤ b.sortKey) ∨
      visibleInst b = false :=
  pairwise_nthOpt keyOrdered _ (pairwise_mergeSortInsts _) i j hij a b ha hb

/-- Pool instance used in the C1 witness: visible, sort key 5. -/
def c1InstA : GfxRenderInst := { GfxRenderInst.new 0 with flags := 1, sortKey := 5 }

/-- Pool instance used in the C1 witness: visible, sort key 3. -/
def c1InstB : GfxRenderInst := { GfxRenderInst.new 1 with flags := 1, sortKey := 3 }

/-- Manager state used in the C1 witness: two visible live instances
with descending keys. -/
def c1M : GfxRenderInstManager :=
  { gfxRenderInstPool :=
      { pool := [c1InstA, c1InstB], renderInstAllocCount := 2, renderInstFreeCount := 0 }
    renderInstTemplateIndex := -1 }

/-- Witness for C1 at a concrete pool: after sorting, position 0 holds
the key-3 instance and position 1 the key-5 instance, and the ordering
property holds at the pair. -/
theorem executeOnPass_sort_ordering_witness :
    ((0 : Nat) < 1 ∧ 1 < c1M.gfxRenderInstPool.renderInstAllocCount ∧
      nthOpt (mergeSortInsts c1M.gfxRenderInstPool.pool) 0 = some c1InstB ∧
      nthOpt (mergeSortInsts c1M.gfxRenderInstPool.pool) 1 = some c1InstA) ∧
    ((visibleInst c1InstB = true ∧ visibleInst c1InstA = true ∧
        c1InstB.sortKey ≤ c1InstA.sortKey) ∨ visibleInst c1InstA = false) :=
  ⟨⟨by decide, by decide, by decide, by decide⟩,
   executeOnPass_sort_ordering c1M 0 1 c1InstB c1InstA (by decide) (by decide)
     (by decide) (by decide)⟩

/-- Scenario for C10.  Frame one allocates three visible instances
(objects 0, 1, 2) and executes.  Frame two pushes a template (it lands
in slot 0), gives it an empty binding layout, pushes one visible
instance under it, and executes again while the template is still
pushed.  The run returns the manager state just before and just after
the second `executeOnPass`. -/
def c10Run : Except String (GfxRenderInstManager × GfxRenderInstManager) := do
  let p1 ← GfxRenderInstManager.init.pushRenderInst
  let p2 ← p1.1.pushRenderInst
  let p3 ← p2.1.pushRenderInst
  let e1 ← p3.1.executeOnPass envSkip
  let t1 ← e1.1.pushTemplateRenderInst
  let m1 ← mgrModify t1.1 0 (fun r => r.setBindingBase [⟨0, 0⟩] 0)
  let p4 ← m1.pushRenderInst
  let e2 ← p4.1.executeOnPass envSkip
  pure (p4.1, e2.1)

/-- Manager states before and after the sort of the C10 scenario. -/
def c10Res : GfxRenderInstManager × GfxRenderInstManager :=
  okOr c10Run (GfxRenderInstManager.init, GfxRenderInstManager.init)

/-- C10: the sort step of `executeOnPass` reorders the pool's entire
slot sequence, not only the live prefix.  In the scenario the live
range before the call is `[0, 2)` with objects `[0, 2, 1]` in the three
slots and the still-pushed template at recorded index 0; after the call
the slots hold objects `[2, 1, 0]`: the object at the template's
recorded index 0 changed (0 to 2), and the object at index 2 — at or
beyond `renderInstAllocCount = 2` — changed as well (1 to 0), so
indices captured before `executeOnPass` do not remain valid. -/
theorem executeOnPass_reorders_whole_pool :
    c10Run.isOk = true ∧
    c10Res.1.gfxRenderInstPool.renderInstAllocCount = 2 ∧
    c10Res.1.renderInstTemplateIndex = 0 ∧
    c10Res.2.renderInstTemplateIndex = 0 ∧
    c10Res.1.gfxRenderInstPool.pool.map GfxRenderInst.objId = [0, 2, 1] ∧
    c10Res.2.gfxRenderInstPool.pool.map GfxRenderInst.objId = [2, 1, 0] ∧
    (nthOpt c10Res.1.gfxRenderInstPool.pool 0).map GfxRenderInst.objId ≠
      (nthOpt c10Res.2.gfxRenderInstPool.pool 0).map GfxRenderInst.objId ∧
    (nthOpt c10Res.1.gfxRenderInstPool.pool 2).map GfxRenderInst.objId ≠
      (nthOpt c10Res.2.gfxRenderInstPool.pool 2).map GfxRenderInst.objId := by
  decide

/-- Pool scenario for C4: allocate two slots, return the instance in
slot 0, then reset. -/
def c4P1 : GfxRenderInstPool := (GfxRenderInstPool.init.allocRenderInstIndex).1

/-- Second allocation of the C4 scenario. -/
def c4P2 : GfxRenderInstPool := (c4P1.allocRenderInstIndex).1

/-- The C4 pool after returning slot 0. -/
def c4P3 : GfxRenderInstPool := c4P2.returnRenderInst 0

/-- The C4 pool after `reset`. -/
def c4P4 : GfxRenderInstPool := c4P3.reset

/-- C4 evaluated at the failing input: after `reset` on a pool with
`renderInstFreeCount = 1`, the alloc count is zero, every previously
allocated slot has flags 0 and the constructed objects are retained in
place — but `renderInstFreeCount` is still 1, not 0, because `reset`
never clears it (contradicting the field's own documentation, which
counts free instances inside the allocated portion — empty after a
reset). -/
theorem reset_leaves_freeCount :
    c4P3.renderInstFreeCount = 1 ∧
    c4P4.renderInstAllocCount = 0 ∧
    c4P4.pool.map GfxRenderInst.flags = [0, 0] ∧
    c4P4.pool.map GfxRenderInst.objId = [0, 1] ∧
    c4P4.renderInstFreeCount = 1 := by decide

/-- Scenario for C5, stopping just before the final allocation: push a
template (slot 0), give it an empty binding layout, push a second
template under it (slot 1), and pop the second template.  The active
template is at index 0 and `renderInstFreeCount = 1`. -/
def c5Pre : GfxRenderInstManager :=
  okOr (do
    let t1 ← GfxRenderInstManager.init.pushTemplateRenderInst
    let m1 ← mgrModify t1.1 0 (fun r => r.setBindingBase [⟨0, 0⟩] 0)
    let t2 ← m1.pushTemplateRenderInst
    t2.1.popTemplateRenderInst) GfxRenderInstManager.init

/-- The final `pushRenderInst` of the C5 scenario. -/
def c5Run : Except String (GfxRenderInstManager × Nat) := c5Pre.pushRenderInst

/-- C5 evaluated at the failing input: with the template at index 0
still pushed (never released) and one genuinely freed slot at index 1,
the free-slot scan of `allocRenderInstIndex` returns index 0 — the
live template's own slot — because pushed templates keep
`_flags === 0`.  The handed-out instance and the still-active template
are two simultaneously-live instances at the same index. -/
theorem allocIndex_hands_out_live_template_slot :
    c5Pre.renderInstTemplateIndex = 0 ∧
    c5Pre.gfxRenderInstPool.renderInstFreeCount = 1 ∧
    (nthOpt c5Pre.gfxRenderInstPool.pool 1).map GfxRenderInst.flags = some 0 ∧
    c5Run.toOption.map (fun r => r.2) = some 0 ∧
    c5Run.toOption.map (fun r => r.1.renderInstTemplateIndex) = some 0 ∧
    c5Run.toOption.map
      (fun r => (nthOpt r.1.gfxRenderInstPool.pool 0).map GfxRenderInst.flags) =
      some (some 1) := by decide

/-- C7: when the pipeline the cache resolves for an instance is not
ready, `drawOnPass` returns without issuing any render-pass call and
without mutating the instance, and raises no error; when it is ready
(and the instance state is consistent: either no uniform-buffer
binding entries, or a uniform-buffer collaborator set — true of every
state built through the API), it binds pipeline, input state and
bindings and issues exactly one draw call, the trace being exactly
`setPipeline`, `setInputState`, `setBindings`, then one draw. -/
theorem drawOnPass_ready_behavior (env : DrawEnv) (inst : GfxRenderInst) :
    (env.queryPipelineReady (env.createRenderPipeline inst.renderPipelineDescriptor) = false →
      inst.drawOnPass env = .ok (inst, [])) ∧
    (env.queryPipelineReady (env.createRenderPipeline inst.renderPipelineDescriptor) = true →
      (inst.bindingDescriptor.uniformBufferBindings = [] ∨ inst.uniformBuffer ≠ none) →
      inst.drawOnPass env = .ok (fillBuffers env inst,
        [.setPipeline (env.createRenderPipeline inst.renderPipelineDescriptor),
         .setInputState inst.inputState,
         .setBindings 0 (env.createBindings (fillBuffers env inst).bindingDescriptor)
           inst.dynamicUniformBufferOffsets,
         if inst.flags &&& 2 != 0 then
           GfxPassCmd.drawIndexed inst.drawCount inst.drawStart
         else GfxPassCmd.draw inst.drawCount inst.drawStart])) := by
  constructor
  · intro h
    simp only [GfxRenderInst.drawOnPass, h]
    rfl
  · intro h hbuf
    have hguard : ¬(inst.bindingDescriptor.uniformBufferBindings ≠ [] ∧
        inst.uniformBuffer = none) := by
      rcases hbuf with h1 | h1
      · exact fun hc => hc.1 h1
      · exact fun hc => h1 hc.2
    simp only [GfxRenderInst.drawOnPass, h, if_true, if_neg hguard]

/-- Witness for C7: at a concrete never-ready environment the draw is
skipped with an empty trace and unchanged instance; at a concrete
always-ready environment the trace is the four commands ending in one
non-indexed draw. -/
theorem drawOnPass_ready_behavior_witness :
    (GfxRenderInst.new 0).drawOnPass envSkip = .ok (GfxRenderInst.new 0, []) ∧
    (GfxRenderInst.new 0).drawOnPass envReady = .ok (fillBuffers envReady (GfxRenderInst.new 0),
      [.setPipeline 1, .setInputState none, .setBindings 0 2 [0, 0, 0, 0],
       GfxPassCmd.draw none none]) :=
  ⟨(drawOnPass_ready_behavior envSkip (GfxRenderInst.new 0)).1 (by decide),
   (drawOnPass_ready_behavior envReady (GfxRenderInst.new 0)).2 (by decide)
     (Or.inl (by decide))⟩

/-- Instance for the C9 counterexample: allocated and visible, with
`drawIndexes(5)` followed by `drawPrimitives(3)` — the most recent
draw-range call is the non-indexed one. -/
def c9Inst : GfxRenderInst :=
  (({ GfxRenderInst.new 0 with flags := 1 }).drawIndexes 5 0).drawPrimitives 3 0

/-- C9 counterexample: after `drawPrimitives` (the `indexed = false`
form of the spec's `setDraw`) following an earlier `drawIndexes`, the
submitted draw is still an indexed one, `drawIndexed(3, 0)` — the
claim says the most recent call decides and the draw would be
non-indexed. -/
theorem drawPrimitives_then_indexed_draw :
    (okOr (c9Inst.drawOnPass envReady) (c9Inst, [])).2.getLast? =
      some (GfxPassCmd.drawIndexed (some 3) (some 0)) := by decide

/-- C9 (amended): `drawIndexes` sets the `DRAW_INDEXED` flag bit and
`drawPrimitives` leaves the flags untouched — it never clears the bit —
and a submission issues an indexed draw precisely when the bit is set.
So the draw is indexed iff some `drawIndexes` ran during the
instance's current flag lifetime, regardless of whether a later
`drawPrimitives` was the most recent draw-range call. -/
theorem drawFlag_behavior :
    (∀ (inst : GfxRenderInst) (c s : Nat), (inst.drawPrimitives c s).flags = inst.flags) ∧
    (∀ (inst : GfxRenderInst) (c s : Nat), (inst.drawIndexes c s).flags = inst.flags ||| 2) ∧
    (∀ (env : DrawEnv) (inst r : GfxRenderInst) (tr : List GfxPassCmd),
      inst.drawOnPass env = .ok (r, tr) → tr ≠ [] →
      tr.getLast? = some (if inst.flags &&& 2 != 0 then
        GfxPassCmd.drawIndexed inst.drawCount inst.drawStart
      else GfxPassCmd.draw inst.drawCount inst.drawStart)) := by
  refine ⟨fun inst c s => rfl, fun inst c s => rfl, ?_⟩
  intro env inst r tr hok htr
  by_cases hready :
      env.queryPipelineReady (env.createRenderPipeline inst.renderPipelineDescriptor) = true
  · by_cases hguard : (inst.bindingDescriptor.uniformBufferBindings ≠ [] ∧
        inst.uniformBuffer = none)
    · simp only [GfxRenderInst.drawOnPass, hready, if_true, if_pos hguard] at hok
      cases hok
    · simp only [GfxRenderInst.drawOnPass, hready, if_true, if_neg hguard] at hok
      have h2 := congrArg Prod.snd (Except.ok.inj hok)
      dsimp only at h2
      rw [← h2]
      rfl
  · rw [Bool.not_eq_true] at hready
    simp only [GfxRenderInst.drawOnPass, hready] at hok
    have h2 := congrArg Prod.snd (Except.ok.inj hok)
    dsimp only at h2
    rw [← h2] at htr
    exact absurd rfl htr

/-- Witness for C9 (amended) at concrete inputs: `drawPrimitives`
leaves flags of a flagged instance unchanged, `drawIndexes` sets bit 1,
and a ready-path submission of `c9Inst` (whose flag bit is set) ends in
an indexed draw. -/
theorem drawFlag_behavior_witness :
    (c9Inst.drawPrimitives 9 0).flags = c9Inst.flags ∧
    (({ GfxRenderInst.new 0 with flags := 1 }).drawIndexes 5 0).flags = 1 ||| 2 ∧
    [GfxPassCmd.setPipeline 1, GfxPassCmd.setInputState none,
     GfxPassCmd.setBindings 0 2 [0, 0, 0, 0],
     GfxPassCmd.drawIndexed (some 3) (some 0)].getLast? =
      some (if c9Inst.flags &&& 2 != 0 then
        GfxPassCmd.drawIndexed c9Inst.drawCount c9Inst.drawStart
      else GfxPassCmd.draw c9Inst.drawCount c9Inst.drawStart) :=
  ⟨drawFlag_behavior.1 c9Inst 9 0,
   drawFlag_behavior.2.1 { GfxRenderInst.new 0 with flags := 1 } 5 0,
   drawFlag_behavior.2.2 envReady c9Inst (fillBuffers envReady c9Inst)
     [GfxPassCmd.setPipeline 1, GfxPassCmd.setInputState none,
      GfxPassCmd.setBindings 0 2 [0, 0, 0, 0],
      GfxPassCmd.drawIndexed (some 3) (some 0)] (by rfl) (by decide)⟩

/-- Instance for the C8 counterexample: its binding arrays were grown
to three uniform-buffer entries by an earlier layout, then the layout
was replaced by one declaring a single uniform buffer (the arrays never
shrink). -/
def c8Inst : GfxRenderInst :=
  okOr (do
    let i1 ← (GfxRenderInst.new 0).setBindingBase [⟨3, 0⟩] 0
    i1.setBindingBase [⟨1, 0⟩] 0) (GfxRenderInst.new 0)

/-- C8 counterexample: with the declared layout holding one uniform
buffer, `allocateUniformBuffer` at slot 2 — beyond the layout's count —
raises no error at all: the source's assert checks only the layout's
count against the offsets capacity and never validates the slot, and
the leftover binding entry at index 2 makes the write succeed,
returning the collaborator's offset. -/
theorem allocateUniformBuffer_no_slot_check :
    c8Inst.bindingDescriptor.bindingLayout =
      some { numUniformBuffers := 1, numSamplers := 0 } ∧
    c8Inst.bindingDescriptor.uniformBufferBindings.length = 3 ∧
    (c8Inst.allocateUniformBuffer 5 2 16).isOk = true ∧
    (c8Inst.allocateUniformBuffer 5 2 16).toOption.map (fun r => r.2) = some 5 := by
  decide

/-- C8 (amended): `allocateUniformBuffer`'s assert checks only that the
declared layout's uniform-buffer count is below the offsets capacity;
the slot argument itself is never validated against the layout.  When
the slot has a binding entry (in particular whenever it is below the
layout's count on states built through the API) the call records the
collaborator-returned offset in `dynamicUniformBufferOffsets[slot]`,
zeroes that binding's word offset, sets its word count, and returns
the offset; when the slot has no binding entry it fails (a `TypeError`
on the `undefined` destination, not the assert). -/
theorem allocateUniformBuffer_behavior (inst : GfxRenderInst)
    (l : GfxBindingLayoutDescriptor) (e : GfxBufferBinding)
    (chunkOffset bufferIndex wordCount : Nat)
    (hL : inst.bindingDescriptor.bindingLayout = some l)
    (h4 : l.numUniformBuffers < inst.dynamicUniformBufferOffsets.length) :
    (nthOpt inst.bindingDescriptor.uniformBufferBindings bufferIndex = some e →
      inst.allocateUniformBuffer chunkOffset bufferIndex wordCount =
        .ok ({ inst with
          dynamicUniformBufferOffsets :=
            setNthPad inst.dynamicUniformBufferOffsets bufferIndex chunkOffset
          bindingDescriptor :=
            { inst.bindingDescriptor with
              uniformBufferBindings :=
                setNth inst.bindingDescriptor.uniformBufferBindings bufferIndex
                  { e with wordOffset := 0, wordCount := wordCount } } },
          chunkOffset)) ∧
    (nthOpt inst.bindingDescriptor.uniformBufferBindings bufferIndex = none →
      (inst.allocateUniformBuffer chunkOffset bufferIndex wordCount).isOk = false) := by
  constructor
  · intro he
    simp only [GfxRenderInst.allocateUniformBuffer, hL, if_pos h4, he,
      nthOpt_setNthPad_self, Option.getD_some]
  · intro he
    simp only [GfxRenderInst.allocateUniformBuffer, hL, if_pos h4, he]
    rfl

/-- Instance used in the C8 witness: one declared uniform buffer. -/
def c8wInst : GfxRenderInst :=
  okOr ((GfxRenderInst.new 0).setBindingBase [⟨1, 0⟩] 9) (GfxRenderInst.new 0)

/-- Result state of the C8 witness allocation. -/
def c8wRes : GfxRenderInst :=
  (okOr (c8wInst.allocateUniformBuffer 7 0 16) (c8wInst, 0)).1

/-- Witness for C8 (amended) at slot 0 of a one-buffer layout with
collaborator offset 7 and word count 16. -/
theorem allocateUniformBuffer_behavior_witness :
    c8wInst.allocateUniformBuffer 7 0 16 = .ok (c8wRes, 7) :=
  (allocateUniformBuffer_behavior c8wInst { numUniformBuffers := 1, numSamplers := 0 }
    { buffer := none, wordCount := 0, wordOffset := 0 } 7 0 16 (by decide) (by decide)).1
    (by decide)

theorem nthOpt_ge {α : Type} (l : List α) (i : Nat) (h : l.length ≤ i) :
    nthOpt l i = none := by
  induction l generalizing i with
  | nil => rfl
  | cons x xs ih =>
    cases i with
    | zero => simp at h
    | succ n => simpa [nthOpt] using ih n (by simpa using h)

/-- The value the caller observes at slot `i` right before an
allocation: the stored instance, or the freshly constructed one the
pool would append there. -/
def slotOrNew (m : GfxRenderInstManager) (i : Nat) : GfxRenderInst :=
  match nthOpt m.gfxRenderInstPool.pool i with
  | some a => a
  | none => GfxRenderInst.new i

theorem allocRenderInstIndex_slot (p : GfxRenderInstPool) (idx : Nat)
    (inst : GfxRenderInst)
    (h : nthOpt (p.allocRenderInstIndex).1.pool idx = some inst) :
    (match nthOpt p.pool idx with
     | some a => a
     | none => GfxRenderInst.new idx) = inst := by
  rw [GfxRenderInstPool.allocRenderInstIndex] at h
  split at h
  · dsimp only at h
    rw [h]
  · dsimp only at h
    by_cases hgrow : p.pool.length < p.renderInstAllocCount + 1
    · rw [if_pos hgrow] at h
      by_cases hlt : idx < p.pool.length
      · rw [nthOpt_append_left _ _ _ hlt] at h
        rw [h]
      · have hlen : idx < (p.pool ++ [GfxRenderInst.new p.pool.length]).length :=
          nthOpt_lt_length _ _ _ h
        have hidx : idx = p.pool.length := by
          simp at hlen
          omega
        subst hidx
        rw [nthOpt_append_end] at h
        rw [nthOpt_ge _ _ (Nat.le_refl _)]
        exact Option.some.inj h
    · rw [if_neg hgrow] at h
      rw [h]

/-- C3 (amended): on the no-template hand-out path, `pushRenderInst`
overwrites only `sortKey` and `passMask` (through `reset`) and `flags`
(set to `VISIBLE`); every other field of the handed-out instance —
pipeline state, bindings, dynamic offsets, draw range — retains the
value from the pooled slot's prior logical lifetime (initial values
when the slot is freshly constructed). -/
theorem pushRenderInst_reset_path (m m' : GfxRenderInstManager) (i : Nat)
    (hT : m.renderInstTemplateIndex < 0)
    (hok : m.pushRenderInst = .ok (m', i)) :
    nthOpt m'.gfxRenderInstPool.pool i =
      some { slotOrNew m i with sortKey := 0, passMask := 0, flags := 1 } := by
  have hT' : ¬ (0 ≤ m.renderInstTemplateIndex) := by omega
  rw [GfxRenderInstManager.pushRenderInst] at hok
  simp only [if_neg hT'] at hok
  split at hok
  · cases hok
  · rename_i idx hidx
    split at hok
    · cases hok
    · rename_i inst hinst
      have hm' := congrArg Prod.fst (Except.ok.inj hok)
      have hi := congrArg Prod.snd (Except.ok.inj hok)
      dsimp only at hm' hi
      subst hi
      rw [← hm']
      dsimp only
      rw [nthOpt_setNth_self _ _ _ (nthOpt_lt_length _ _ _ hinst)]
      have hslot : slotOrNew m idx = inst :=
        allocRenderInstIndex_slot m.gfxRenderInstPool idx inst hinst
      rw [hslot]
      rfl

/-- Manager state after the first `pushRenderInst` on a fresh manager
(used in the C3 witness). -/
def c3wM : GfxRenderInstManager :=
  (okOr GfxRenderInstManager.init.pushRenderInst (GfxRenderInstManager.init, 0)).1

/-- Witness for C3 (amended) on a fresh manager: the handed-out
instance is the freshly constructed slot value with only
`sortKey`/`passMask`/`flags` overwritten. -/
theorem pushRenderInst_reset_path_witness :
    nthOpt c3wM.gfxRenderInstPool.pool 0 =
      some { slotOrNew GfxRenderInstManager.init 0 with
        sortKey := 0, passMask := 0, flags := 1 } :=
  pushRenderInst_reset_path GfxRenderInstManager.init c3wM 0 (by decide) (by rfl)

/-- Scenario for the C3 counterexample: frame one allocates one
instance, sets its program to 7 and records an indexed draw of 10,
then executes (retiring the slot); frame two allocates again with no
template active. -/
def c3Pre : GfxRenderInstManager :=
  okOr (do
    let p1 ← GfxRenderInstManager.init.pushRenderInst
    let m1 ← mgrModify p1.1 0 (fun r => .ok ((r.setGfxProgram 7).drawIndexes 10 0))
    let e1 ← m1.executeOnPass envSkip
    pure e1.1) GfxRenderInstManager.init

/-- The frame-two allocation of the C3 counterexample scenario. -/
def c3Run : Except String (GfxRenderInstManager × Nat) := c3Pre.pushRenderInst

/-- Manager state after the frame-two allocation of the C3 scenario. -/
def c3M2 : GfxRenderInstManager := (okOr c3Run (GfxRenderInstManager.init, 0)).1

/-- C3 counterexample: in the second logical lifetime of pooled object
0, handed out by `pushRenderInst` with no template active and no
caller mutation, the observable program is still 7 and the draw count
still 10 — values set only during the prior logical lifetime.  The
claim that every observable field is fully overwritten by the reset
path or copy-from-template before reuse is false. -/
theorem pushRenderInst_stale_fields :
    c3Run.toOption.map (fun r => r.2) = some 0 ∧
    c3Pre.renderInstTemplateIndex = -1 ∧
    (nthOpt c3M2.gfxRenderInstPool.pool 0).map
      (fun r => r.renderPipelineDescriptor.program) = some (some 7) ∧
    (nthOpt c3M2.gfxRenderInstPool.pool 0).map (fun r => r.drawCount) = some (some 10) ∧
    (nthOpt c3M2.gfxRenderInstPool.pool 0).map (fun r => r.objId) = some 0 ∧
    (nthOpt c3M2.gfxRenderInstPool.pool 0).map (fun r => r.flags) = some 1 := by decide

theorem copyWordCounts_agree (n : Nat) (src : List GfxBufferBinding)
    (dst out : List GfxBufferBinding)
    (hok : copyWordCounts n src dst = .ok out) :
    ∀ k, k < n → (nthOpt out k).map GfxBufferBinding.wordCount =
      (nthOpt src k).map GfxBufferBinding.wordCount := by
  induction n generalizing out with
  | zero => intro k hk; omega
  | succ n ih =>
    rw [copyWordCounts] at hok
    cases hrec : copyWordCounts n src dst with
    | error e => rw [hrec] at hok; cases hok
    | ok dst' =>
      rw [hrec] at hok
      dsimp only at hok
      cases hs : nthOpt src n with
      | none => rw [hs] at hok; dsimp only at hok; cases hok
      | some s =>
        cases hd : nthOpt dst' n with
        | none => rw [hs, hd] at hok; dsimp only at hok; cases hok
        | some d =>
          rw [hs, hd] at hok
          dsimp only at hok
          have hout : out = setNth dst' n { d with wordCount := s.wordCount } :=
            (Except.ok.inj hok).symm
          intro k hk
          by_cases hkn : k = n
          · subst hkn
            rw [hout, nthOpt_setNth_self _ _ _ (nthOpt_lt_length _ _ _ hd), hs]
            rfl
          · rw [hout, nthOpt_setNth_ne _ _ _ _ (fun hnk => hkn hnk.symm)]
            exact ih dst' hrec k (by omega)


/-- What `setFromTemplate` guarantees on success: the result agrees
with the template on every copied field (mega-state, program, input
layout, topology, input state, uniform-buffer collaborator, binding
layout, all of the template's sampler entries, word counts up to the
layout's uniform-buffer count) and retains the destination's values on
everything else (identity, sort key, pass mask, flags, parent index,
dynamic offsets, draw range). -/
theorem setFromTemplate_agree (inst o r : GfxRenderInst)
    (hok : inst.setFromTemplate o = .ok r) :
    r.renderPipelineDescriptor.megaStateDescriptor =
      o.renderPipelineDescriptor.megaStateDescriptor ∧
    r.renderPipelineDescriptor.program = o.renderPipelineDescriptor.program ∧
    r.renderPipelineDescriptor.inputLayout = o.renderPipelineDescriptor.inputLayout ∧
    r.renderPipelineDescriptor.topology = o.renderPipelineDescriptor.topology ∧
    r.inputState = o.inputState ∧
    r.uniformBuffer = o.uniformBuffer ∧
    r.bindingDescriptor.bindingLayout = o.bindingDescriptor.bindingLayout ∧
    (∀ k, k < o.bindingDescriptor.samplerBindings.length →
      nthOpt r.bindingDescriptor.samplerBindings k =
        nthOpt o.bindingDescriptor.samplerBindings k) ∧
    (∀ l, o.bindingDescriptor.bindingLayout = some l →
      ∀ k, k < l.numUniformBuffers →
        (nthOpt r.bindingDescriptor.uniformBufferBindings k).map
            GfxBufferBinding.wordCount =
          (nthOpt o.bindingDescriptor.uniformBufferBindings k).map
            GfxBufferBinding.wordCount) ∧
    r.objId = inst.objId ∧ r.sortKey = inst.sortKey ∧ r.passMask = inst.passMask ∧
    r.flags = inst.flags ∧ r.parentTemplateIndex = inst.parentTemplateIndex ∧
    r.dynamicUniformBufferOffsets = inst.dynamicUniformBufferOffsets ∧
    r.drawCount = inst.drawCount ∧ r.drawStart = inst.drawStart := by
  rw [GfxRenderInst.setFromTemplate] at hok
  cases hL : o.bindingDescriptor.bindingLayout with
  | none => rw [hL] at hok; cases hok
  | some l =>
    rw [hL] at hok
    dsimp only at hok
    rw [GfxRenderInst.setBindingLayout] at hok
    split at hok
    · cases hok
    · rename_i i2 heq
      split at heq
      · have h2 := Except.ok.inj heq
        subst h2
        rw [GfxRenderInst.setSamplerBindings] at hok
        dsimp only at hok
        split at hok
        · cases hok
        · rename_i i3 heq2
          split at heq2
          · have h3 := Except.ok.inj heq2
            subst h3
            split at hok
            · cases hok
            · rename_i ubb' heq3
              have hr := Except.ok.inj hok
              subst hr
              dsimp only
              refine ⟨rfl, rfl, rfl, rfl, rfl, rfl, rfl, ?_, ?_, rfl, rfl, rfl,
                rfl, rfl, rfl, rfl, rfl⟩
              · intro k hk
                exact nthOpt_append_left _ _ k hk
              · intro l' hl' k hk
                have hll : l' = l := (Option.some.inj hl').symm
                subst hll
                exact copyWordCounts_agree l'.numUniformBuffers _ _ _ heq3 k hk
          · cases heq2
      · cases heq

theorem allocRenderInstIndex_preserves (p : GfxRenderInstPool) (t : Nat)
    (h : t < p.pool.length) :
    nthOpt (p.allocRenderInstIndex).1.pool t = nthOpt p.pool t := by
  rw [GfxRenderInstPool.allocRenderInstIndex]
  split
  · rfl
  · dsimp only
    split
    · exact nthOpt_append_left _ _ t h
    · rfl

/-- C2 (amended): an instance handed out by `pushRenderInst` while a
template `T` is active, before any caller mutation, agrees with `T` on
the copied binding and pipeline state: mega-state, program, input
layout, topology, input state, uniform-buffer collaborator, binding
layout, all of `T`'s sampler binding entries, and uniform-buffer word
counts up to the layout's declared count — and its flags are exactly
`VISIBLE`.  Word offsets and `dynamicUniformBufferOffsets` are not
copied (they are allocated fresh per instance, or inherited explicitly
via `copyUniformBufferBinding`), and `sortKey`/`passMask`/draw range
keep the pooled slot's prior values. -/
theorem pushRenderInst_template_agreement (m m' : GfxRenderInstManager)
    (t i : Nat) (T r : GfxRenderInst)
    (hT : m.renderInstTemplateIndex = Int.ofNat t)
    (hTs : nthOpt m.gfxRenderInstPool.pool t = some T)
    (hok : m.pushRenderInst = .ok (m', i))
    (hr : nthOpt m'.gfxRenderInstPool.pool i = some r) :
    r.renderPipelineDescriptor.megaStateDescriptor =
      T.renderPipelineDescriptor.megaStateDescriptor ∧
    r.renderPipelineDescriptor.program = T.renderPipelineDescriptor.program ∧
    r.renderPipelineDescriptor.inputLayout = T.renderPipelineDescriptor.inputLayout ∧
    r.renderPipelineDescriptor.topology = T.renderPipelineDescriptor.topology ∧
    r.inputState = T.inputState ∧
    r.uniformBuffer = T.uniformBuffer ∧
    r.bindingDescriptor.bindingLayout = T.bindingDescriptor.bindingLayout ∧
    (∀ k, k < T.bindingDescriptor.samplerBindings.length →
      nthOpt r.bindingDescriptor.samplerBindings k =
        nthOpt T.bindingDescriptor.samplerBindings k) ∧
    (∀ l, T.bindingDescriptor.bindingLayout = some l →
      ∀ k, k < l.numUniformBuffers →
        (nthOpt r.bindingDescriptor.uniformBufferBindings k).map
            GfxBufferBinding.wordCount =
          (nthOpt T.bindingDescriptor.uniformBufferBindings k).map
            GfxBufferBinding.wordCount) ∧
    r.flags = 1 := by
  rw [GfxRenderInstManager.pushRenderInst] at hok
  have ht : t < m.gfxRenderInstPool.pool.length := nthOpt_lt_length _ _ _ hTs
  have hpos : (0 : Int) ≤ Int.ofNat t := Int.ofNat_nonneg t
  have htn : (Int.ofNat t).toNat = t := rfl
  simp only [hT, if_pos hpos, htn] at hok
  rw [allocRenderInstIndex_preserves _ _ ht, hTs] at hok
  dsimp only at hok
  split at hok
  · cases hok
  · rename_i idx hidx
    split at hok
    · cases hok
    · rename_i inst hinst
      split at hok
      · cases hok
      · rename_i inst' heqc
        have hm' := congrArg Prod.fst (Except.ok.inj hok)
        have hi := congrArg Prod.snd (Except.ok.inj hok)
        dsimp only at hm' hi
        subst hi
        rw [← hm'] at hr
        dsimp only at hr
        rw [nthOpt_setNth_self _ _ _ (nthOpt_lt_length _ _ _ hinst)] at hr
        have hrr := Option.some.inj hr
        obtain ⟨h1, h2, h3, h4, h5, h6, h7, h8, h9, _⟩ :=
          setFromTemplate_agree inst T inst' heqc
        subst hrr
        exact ⟨h1, h2, h3, h4, h5, h6, h7, h8, h9, rfl⟩

/-- Scenario for C2: push a template, give it a one-uniform-buffer
layout with collaborator 5, allocate a uniform chunk on it (the
collaborator returns offset 7), leaving the template's
`dynamicUniformBufferOffsets` at `[7, 0, 0, 0]`. -/
def c2Pre : GfxRenderInstManager :=
  okOr (do
    let t1 ← GfxRenderInstManager.init.pushTemplateRenderInst
    let m1 ← mgrModify t1.1 0 (fun r => r.setBindingBase [⟨1, 0⟩] 5)
    mgrModify m1 0 (fun r => (r.allocateUniformBuffer 7 0 16).map (fun p => p.1)))
    GfxRenderInstManager.init

/-- The active template of the C2 scenario. -/
def c2T : GfxRenderInst :=
  (nthOpt c2Pre.gfxRenderInstPool.pool 0).getD (GfxRenderInst.new 0)

/-- Manager state after pushing one instance under the C2 template. -/
def c2M' : GfxRenderInstManager := (okOr c2Pre.pushRenderInst (c2Pre, 0)).1

/-- The instance handed out under the C2 template, unmutated. -/
def c2R : GfxRenderInst :=
  (nthOpt c2M'.gfxRenderInstPool.pool 1).getD (GfxRenderInst.new 0)

/-- C2 counterexample: the instance pushed while the template is
active differs from the template in `dynamicUniformBufferOffsets`
(`[0,0,0,0]` against the template's `[7,0,0,0]`): `setFromTemplate`
does not copy the dynamic uniform offsets, so the claim that the
pushed instance is identical to the template in its dynamic uniform
offsets is false. -/
theorem pushRenderInst_does_not_copy_dynamic_offsets :
    c2Pre.renderInstTemplateIndex = 0 ∧
    c2T.dynamicUniformBufferOffsets = [7, 0, 0, 0] ∧
    c2R.dynamicUniformBufferOffsets = [0, 0, 0, 0] ∧
    c2R.dynamicUniformBufferOffsets ≠ c2T.dynamicUniformBufferOffsets := by decide

/-- Witness for C2 (amended) on the concrete scenario: the pushed
instance agrees with the template on program, binding layout and
uniform-buffer collaborator, and is marked visible. -/
theorem pushRenderInst_template_agreement_witness :
    c2R.renderPipelineDescriptor.program = c2T.renderPipelineDescriptor.program ∧
    c2R.bindingDescriptor.bindingLayout = c2T.bindingDescriptor.bindingLayout ∧
    c2R.uniformBuffer = c2T.uniformBuffer ∧
    c2R.flags = 1 := by
  obtain ⟨h1, h2, h3, h4, h5, h6, h7, h8, h9, h10⟩ :=
    pushRenderInst_template_agreement c2Pre c2M' 0 1 c2T c2R (by decide) (by rfl)
      (by rfl) (by rfl)
  exact ⟨h2, h7, h6, h10⟩

/-- Manager state right after one `pushTemplateRenderInst` on a fresh
manager (the pushed template occupies slot 0 with flags 0). -/
def c6A : GfxRenderInstManager :=
  (okOr GfxRenderInstManager.init.pushTemplateRenderInst (GfxRenderInstManager.init, 0)).1

/-- Scenario for the second half of the C6 counterexample: push a
template with an empty layout, push a visible instance under it, pop
the template, and execute the frame. -/
def c6B : GfxRenderInstManager :=
  okOr (do
    let t1 ← GfxRenderInstManager.init.pushTemplateRenderInst
    let m1 ← mgrModify t1.1 0 (fun r => r.setBindingBase [⟨0, 0⟩] 0)
    let p1 ← m1.pushRenderInst
    let m2 ← p1.1.popTemplateRenderInst
    let e1 ← m2.executeOnPass envSkip
    pure e1.1) GfxRenderInstManager.init

/-- C6 counterexample.  First half: right after `pushTemplateRenderInst`
the live prefix `[0, 1)` contains one slot with flags 0 (the active
template) while `renderInstFreeCount = 0`, so the claimed
characterisation of `freeCount` as the number of flag-0 slots in the
live prefix fails.  Second half: after a frame in which a popped
template's slot was never reused, `executeOnPass`'s reset leaves
`renderInstFreeCount = 1` with `renderInstAllocCount = 0`, so the
claimed inequality `freeCount ≤ allocCount` fails as well. -/
theorem poolCounts_claimed_invariant_fails :
    (c6A.gfxRenderInstPool.renderInstFreeCount = 0 ∧
     c6A.gfxRenderInstPool.renderInstAllocCount = 1 ∧
     (nthOpt c6A.gfxRenderInstPool.pool 0).map GfxRenderInst.flags = some 0) ∧
    (c6B.gfxRenderInstPool.renderInstFreeCount = 1 ∧
     c6B.gfxRenderInstPool.renderInstAllocCount = 0) := by decide

/-- The part of the claimed pool invariant that does survive the
counterexamples: the live count never exceeds the slot array length. -/
def poolAllocBound (p : GfxRenderInstPool) : Prop :=
  p.renderInstAllocCount ≤ p.pool.length

/-- One step of the manager's public API. -/
inductive MgrOp where
  | pushInst : MgrOp
  | pushTmpl : MgrOp
  | popTmpl : MgrOp
  | exec : DrawEnv → MgrOp

/-- Application of one public-API step to a manager state. -/
def MgrOp.apply : MgrOp → GfxRenderInstManager → Except String GfxRenderInstManager
  | .pushInst, m => m.pushRenderInst.map (fun r => r.1)
  | .pushTmpl, m => m.pushTemplateRenderInst.map (fun r => r.1)
  | .popTmpl, m => m.popTemplateRenderInst
  | .exec env, m => (m.executeOnPass env).map (fun r => r.1)

theorem allocRenderInstIndex_bound (p : GfxRenderInstPool)
    (h : poolAllocBound p) : poolAllocBound (p.allocRenderInstIndex).1 := by
  rw [GfxRenderInstPool.allocRenderInstIndex]
  split
  · exact h
  · dsimp only [poolAllocBound] at h ⊢
    split
    · rename_i hlt
      simp only [List.length_append, List.length_cons, List.length_nil]
      omega
    · rename_i hlt
      omega

theorem pushRenderInst_bound (m m' : GfxRenderInstManager) (i : Nat)
    (h : poolAllocBound m.gfxRenderInstPool)
    (hok : m.pushRenderInst = .ok (m', i)) :
    poolAllocBound m'.gfxRenderInstPool := by
  have hb := allocRenderInstIndex_bound m.gfxRenderInstPool h
  rw [GfxRenderInstManager.pushRenderInst] at hok
  repeat' split at hok
  all_goals try dsimp only at hok
  all_goals try rw [eq_comm] at hok
  repeat' split at hok
  all_goals try cases hok
  all_goals dsimp only [poolAllocBound]
  all_goals rw [setNth_length]
  all_goals exact hb

theorem pushTemplateRenderInst_bound (m m' : GfxRenderInstManager) (i : Nat)
    (h : poolAllocBound m.gfxRenderInstPool)
    (hok : m.pushTemplateRenderInst = .ok (m', i)) :
    poolAllocBound m'.gfxRenderInstPool := by
  have hb := allocRenderInstIndex_bound m.gfxRenderInstPool h
  rw [GfxRenderInstManager.pushTemplateRenderInst] at hok
  repeat' split at hok
  all_goals try dsimp only at hok
  all_goals try rw [eq_comm] at hok
  repeat' split at hok
  all_goals try cases hok
  all_goals dsimp only [poolAllocBound]
  all_goals rw [setNth_length]
  all_goals exact hb

theorem popTemplateRenderInst_bound (m m' : GfxRenderInstManager)
    (h : poolAllocBound m.gfxRenderInstPool)
    (hok : m.popTemplateRenderInst = .ok m') :
    poolAllocBound m'.gfxRenderInstPool := by
  rw [GfxRenderInstManager.popTemplateRenderInst] at hok
  split at hok
  · split at hok
    · cases hok
    · have hm' := Except.ok.inj hok
      rw [← hm']
      dsimp only [poolAllocBound, GfxRenderInstPool.returnRenderInst]
      split
      · rw [setNth_length]; exact h
      · exact h
  · cases hok

theorem executeOnPass_bound (m m' : GfxRenderInstManager) (env : DrawEnv)
    (tr : List GfxPassCmd)
    (hok : m.executeOnPass env = .ok (m', tr)) :
    poolAllocBound m'.gfxRenderInstPool := by
  rw [GfxRenderInstManager.executeOnPass] at hok
  split at hok
  · rename_i hz
    have hm' := congrArg Prod.fst (Except.ok.inj hok)
    dsimp only at hm'
    rw [← hm']
    dsimp only [poolAllocBound]
    simp only [Nat.beq_eq_true_eq] at hz
    omega
  · dsimp only at hok
    split at hok
    · cases hok
    · have hm' := congrArg Prod.fst (Except.ok.inj hok)
      dsimp only at hm'
      rw [← hm']
      exact Nat.zero_le _

/-- C6 (amended): of the claimed invariant
`freeCount <= allocCount <= slots.length` with `freeCount` counting the
flag-0 slots of the live prefix, the part that holds in the initial
state and is preserved by every public-API manager operation (each of
which drives the pool's `allocIndex`, `release`, `reset`) is
`allocCount <= slots.length`.  The `freeCount` characterisation fails
as soon as a template is pushed (active templates are flag-0 but
uncounted), and `freeCount <= allocCount` fails across a reset with
pending free slots, because `reset` does not clear `freeCount`. -/
theorem poolAllocBound_invariant :
    poolAllocBound GfxRenderInstManager.init.gfxRenderInstPool ∧
    (∀ (op : MgrOp) (m m' : GfxRenderInstManager),
      poolAllocBound m.gfxRenderInstPool → op.apply m = .ok m' →
      poolAllocBound m'.gfxRenderInstPool) := by
  constructor
  · exact Nat.le_refl 0
  · intro op m m' h hok
    cases op with
    | pushInst =>
      rw [MgrOp.apply] at hok
      cases hp : m.pushRenderInst with
      | error e => rw [hp] at hok; cases hok
      | ok pr =>
        rw [hp] at hok
        dsimp only [Except.map] at hok
        have h1 := Except.ok.inj hok
        exact pushRenderInst_bound m m' pr.2 h (by rw [hp, ← h1])
    | pushTmpl =>
      rw [MgrOp.apply] at hok
      cases hp : m.pushTemplateRenderInst with
      | error e => rw [hp] at hok; cases hok
      | ok pr =>
        rw [hp] at hok
        dsimp only [Except.map] at hok
        have h1 := Except.ok.inj hok
        exact pushTemplateRenderInst_bound m m' pr.2 h (by rw [hp, ← h1])
    | popTmpl =>
      rw [MgrOp.apply] at hok
      exact popTemplateRenderInst_bound m m' h hok
    | exec env =>
      rw [MgrOp.apply] at hok
      cases hp : m.executeOnPass env with
      | error e => rw [hp] at hok; cases hok
      | ok pr =>
        rw [hp] at hok
        dsimp only [Except.map] at hok
        have h1 := Except.ok.inj hok
        exact executeOnPass_bound m m' env pr.2 (by rw [hp, ← h1])

/-- Witness for C6 (amended): the bound holds after a concrete
`pushTemplateRenderInst` step from the initial state. -/
theorem poolAllocBound_invariant_witness :
    poolAllocBound c6A.gfxRenderInstPool :=
  poolAllocBound_invariant.2 MgrOp.pushTmpl GfxRenderInstManager.init c6A
    poolAllocBound_invariant.1 (by rfl)
